import Mathlib

/-!
Verification of the conso-web-ide session coordinator.

Shallow embedding of the relevant parts of the repository:
* `src/src/App.js` — the `MainApp` component: phase statuses, the
  WebSocket result listeners, the debounced `handleCodeChange`, `canRun`,
  and `handleRun`.
* `src/components/InteractiveTerminal.js` — the xterm `onData` keystroke
  handler (terminal input buffer) and the execution-channel `ws.onmessage`
  handler.
* `src/services/websocketService.js` — the `WebSocketService` class:
  `connect`, the `onopen`/`onclose` handlers and the reconnection policy.

React `useState` state is modelled as explicit record state threaded
through the handlers; timers (`setTimeout`) are modelled as explicit
pending slots fired by a separate step function; WebSocket sends are
modelled by appending to an observation list.
-/

/-- `STATUS_TYPE` from App.js / InteractiveTerminal.js. -/
inductive StatusType where
  | info
  | success
  | error
  | running
  | pending
deriving DecidableEq, Repr

/-- A phase status object, as built by `createStatus(message, type)`:
`{ message, type }` with message `null` (here `none`) by default. -/
structure Status where
  message : Option String
  type : StatusType
deriving DecidableEq, Repr

/-- `createStatus` helper from App.js. -/
def createStatus (message : Option String) (type : StatusType) : Status :=
  ⟨message, type⟩

/-- `createStatus()` with both defaults: a cleared / pending status. -/
def pendingStatus : Status :=
  createStatus none StatusType.pending

/-- One lexer token as carried in `LexerResult.tokens`. -/
structure Token where
  value : String
  type : String
deriving DecidableEq, Repr

/-- The `lexer_result` frame payload delivered to the `lexerResult`
listener: `{tokens, success, errors}`. -/
structure LexerResult where
  tokens : List Token
  success : Bool
  errors : List String
deriving DecidableEq, Repr

/-- The `parser_result` frame payload delivered to the `parserResult`
listener: `{syntaxValid, success, errors}`. -/
structure ParserResult where
  syntaxValid : Bool
  success : Bool
  errors : List String
deriving DecidableEq, Repr

/-- One entry of the `prompts` list returned by the `initiateRun` call
when the program requires runtime input. -/
structure Prompt where
  variableName : String
  promptText : String
  line : Nat
  variableType : String
deriving DecidableEq, Repr

/-- The `MainApp` component state relevant to the pipeline status machine:
the four phase statuses, the token list, the validity flags, the running
flag, outputs, the input-modal state, and the current file's content. -/
structure AppState where
  lexicalStatus : Status
  syntaxStatus : Status
  semanticStatus : Status
  executionStatus : Status
  tokens : List Token
  syntaxValid : Bool
  semanticValid : Bool
  isRunning : Bool
  programOutput : String
  transpiledCode : String
  isInputModalVisible : Bool
  requiredPrompts : List Prompt
  content : String
deriving DecidableEq, Repr

/-- JS `array.join('; ')`. -/
def joinSemi (errors : List String) : String :=
  String.intercalate "; " errors

/-- JS whitespace as stripped by `String.prototype.trim` (the characters
occurring in practice; JS also strips further Unicode space characters). -/
def isJsWhitespace (c : Char) : Bool :=
  c == ' ' || c == '\t' || c == '\n' || c == '\r'

/-- JS `string.trim()`: strip whitespace from both ends. -/
def jsTrim (s : String) : String :=
  ⟨((s.data.dropWhile isJsWhitespace).reverse.dropWhile isJsWhitespace).reverse⟩

/-- The `lexerResult` listener registered in the MainApp WebSocket effect
(App.js lines 114–131): replace the token list, set the Lexical status
from `success`/`errors`, then clear Syntax/Semantic/Execution to pending,
reset both validity flags and clear the old outputs. -/
def onLexerResult (data : LexerResult) (s : AppState) : AppState :=
  let s := { s with tokens := data.tokens }
  let s :=
    if !data.success then
      { s with lexicalStatus :=
          createStatus (some ("Error: " ++ joinSemi data.errors)) StatusType.error }
    else
      { s with lexicalStatus := createStatus (some "OK") StatusType.success }
  { s with
    syntaxStatus := pendingStatus
    semanticStatus := pendingStatus
    executionStatus := pendingStatus
    syntaxValid := false
    semanticValid := false
    programOutput := ""
    transpiledCode := "" }

/-- The `parserResult` listener registered in the MainApp WebSocket effect
(App.js lines 132–148): set the `syntaxValid` flag and the Syntax status,
then clear Semantic/Execution to pending, reset `semanticValid` and clear
the old outputs. -/
def onParserResult (data : ParserResult) (s : AppState) : AppState :=
  let s := { s with syntaxValid := data.syntaxValid }
  let s :=
    if data.syntaxValid then
      { s with syntaxStatus := createStatus (some "OK") StatusType.success }
    else
      { s with syntaxStatus :=
          createStatus (some ("Error: " ++ joinSemi data.errors)) StatusType.error }
  { s with
    semanticStatus := pendingStatus
    executionStatus := pendingStatus
    semanticValid := false
    programOutput := ""
    transpiledCode := "" }

/-- The derived flag from App.js line 92:
`canRun = syntaxValid && !isRunning && currentFile && currentFile.content.trim().length > 0`
(the current file object always exists via the `files[0]` fallback, so its
truthiness test is dropped; `content` is the current file's content). -/
def canRun (s : AppState) : Bool :=
  s.syntaxValid && !s.isRunning && decide (0 < (jsTrim s.content).length)

/-- C2: For every LexerResult frame received on the analysis channel,
immediately after the handler runs the Syntax, Semantic and Execution
phase statuses are Pending with a null message and `syntaxValid` is false,
regardless of the values those slots held before the frame arrived. -/
theorem lexerResult_resets_downstream (data : LexerResult) (s : AppState) :
    (onLexerResult data s).syntaxStatus.message = none
    ∧ (onLexerResult data s).syntaxStatus.type = StatusType.pending
    ∧ (onLexerResult data s).semanticStatus.message = none
    ∧ (onLexerResult data s).semanticStatus.type = StatusType.pending
    ∧ (onLexerResult data s).executionStatus.message = none
    ∧ (onLexerResult data s).executionStatus.type = StatusType.pending
    ∧ (onLexerResult data s).syntaxValid = false := by
  simp [onLexerResult, pendingStatus, createStatus]

/-- C3: After a ParserResult with `syntaxValid = false`, `canRun` is false;
after a ParserResult with `syntaxValid = true`, when the run session is
inactive and the current source's trim is non-empty, `canRun` is true. -/
theorem parserResult_gates_canRun (data : ParserResult) (s : AppState) :
    (data.syntaxValid = false → canRun (onParserResult data s) = false)
    ∧ (data.syntaxValid = true → s.isRunning = false → 0 < (jsTrim s.content).length →
        canRun (onParserResult data s) = true) := by
  constructor
  · intro h
    simp [onParserResult, canRun, h]
  · intro h hrun hlen
    simp [onParserResult, canRun, h, hrun, hlen]

/-- Witness for C3 at a concrete parser result and state. -/
theorem parserResult_gates_canRun_witness :
    canRun (onParserResult ⟨true, true, []⟩
      ⟨pendingStatus, pendingStatus, pendingStatus, pendingStatus,
        [], false, false, false, "", "", false, [], "x"⟩) = true :=
  (parserResult_gates_canRun ⟨true, true, []⟩
      ⟨pendingStatus, pendingStatus, pendingStatus, pendingStatus,
        [], false, false, false, "", "", false, [], "x"⟩).2 rfl rfl (by decide)

/-- The MainApp state together with the debounce machinery of
`handleCodeChange` (App.js lines 191–223): the `analyzing` flag, the text
captured by the pending `setTimeout` closure (if one is scheduled), the
analysis transport's connection flag, and the list of texts handed to
`websocketService.sendCode`, in order. -/
structure IdeState where
  app : AppState
  analyzing : Bool
  pendingTimer : Option String
  wsIsConnected : Bool
  sentCodes : List String
deriving DecidableEq, Repr

/-- `handleCodeChange(newValue)` (App.js lines 191–223): store the new
content, set Lexical to `Running("Analyzing...")`, clear the downstream
statuses, flags and outputs; then, only when `analyzing` is false, set
`analyzing` and schedule a 750 ms timer whose closure captures `newValue`.
When `analyzing` is already true the whole debounce block is skipped: no
new timer is scheduled and the pending timer is left as it is (the
`return () => clearTimeout(debounceTimer)` inside the handler is the
return value of an `onChange` callback, which no caller ever invokes). -/
def handleCodeChange (newValue : String) (st : IdeState) : IdeState :=
  let app := { st.app with
    content := newValue
    lexicalStatus := createStatus (some "Analyzing...") StatusType.running
    syntaxStatus := pendingStatus
    semanticStatus := pendingStatus
    executionStatus := pendingStatus
    syntaxValid := false
    semanticValid := false
    programOutput := ""
    transpiledCode := "" }
  if !st.analyzing then
    { st with app := app, analyzing := true, pendingTimer := some newValue }
  else
    { st with app := app }

/-- The debounce timer firing (the `setTimeout` body, App.js lines
212–219): if a timer is pending, send the text its closure captured when
the transport is connected (otherwise set a Lexical transport error), and
clear the `analyzing` flag. -/
def debounceTimerFire (st : IdeState) : IdeState :=
  match st.pendingTimer with
  | none => st
  | some newValue =>
    if st.wsIsConnected then
      { st with
        sentCodes := st.sentCodes ++ [newValue]
        analyzing := false
        pendingTimer := none }
    else
      { st with
        app := { st.app with
          lexicalStatus :=
            createStatus (some "Error: WebSocket not connected") StatusType.error }
        analyzing := false
        pendingTimer := none }

/-- Initial MainApp state: Lexical `createStatus("Ready")` (type defaults
to pending), everything else cleared, empty file. -/
def appState0 : AppState :=
  ⟨createStatus (some "Ready") StatusType.pending, pendingStatus, pendingStatus,
    pendingStatus, [], false, false, false, "", "", false, [], ""⟩

/-- Initial IDE state: no timer pending, transport connected, nothing sent. -/
def ideState0 : IdeState :=
  ⟨appState0, false, none, true, []⟩

/-- C1 (failing input): two edits, "a" then "ab", arrive within one
debounce quiet window, then the single scheduled timer fires. Exactly one
send reaches the transport, but it carries "a" — the FIRST text of the
window — not the last text "ab": the second call finds `analyzing` true
and skips the debounce block, so it neither cancels nor replaces the
pending timer, whose closure captured the first text. Afterwards no timer
is pending, so no further send can occur for this window. -/
theorem debounce_window_sends_first_text :
    (debounceTimerFire (handleCodeChange "ab" (handleCodeChange "a" ideState0))).sentCodes = ["a"]
    ∧ (debounceTimerFire (handleCodeChange "ab" (handleCodeChange "a" ideState0))).pendingTimer = none
    ∧ ¬ (debounceTimerFire (handleCodeChange "ab" (handleCodeChange "a" ideState0))).sentCodes = ["ab"] := by
  decide

/-- The browser `WebSocket.CONNECTING` readyState constant. -/
def WebSocket.CONNECTING : Nat := 0

/-- The browser `WebSocket.OPEN` readyState constant. -/
def WebSocket.OPEN : Nat := 1

/-- The browser `WebSocket.CLOSING` readyState constant. -/
def WebSocket.CLOSING : Nat := 2

/-- The browser `WebSocket.CLOSED` readyState constant. -/
def WebSocket.CLOSED : Nat := 3

/-- Execution-channel wire frames
(`{type: "stdout"|"stderr"|"exit"|"stdin", data?, exit_code?}`). -/
inductive ExecFrame where
  | stdout (data : String)
  | stderr (data : String)
  | exit (code : Int)
  | stdin (data : String)
deriving DecidableEq, Repr

/-- The InteractiveTerminal state touched by the `term.onData` keystroke
handler (InteractiveTerminal.js lines 103–147): the pending line buffer
(`lineBufferRef`), `wsRef.current` with its readyState (`none` when the
ref is null), the frames sent over the execution channel, the bytes
echoed to the xterm view, and the number of `console.warn` calls the
handler made for unsendable lines. -/
structure TermState where
  lineBuffer : String
  wsReadyState : Option Nat
  sentFrames : List ExecFrame
  echoed : String
  warnings : Nat
deriving DecidableEq, Repr

/-- The `term.onData` handler (InteractiveTerminal.js lines 103–147),
applied to one keystroke `c` (`code = data.charCodeAt(0)`):
* code 13 (Enter): echo `"\r\n"`; if the WebSocket ref is set and OPEN,
  send `{type:'stdin', data: buffer + "\n"}`, otherwise only warn; then
  clear the buffer in every case;
* code 8 or 127 (Backspace/Delete): when the buffer is non-empty drop its
  last character (`slice(0, -1)`) and echo the visual backspace
  `"\b \b"`; no-op when empty;
* code ≥ 32: append the character to the buffer and echo it;
* any other control code: log only, no echo, no mutation. -/
def onData (c : Char) (st : TermState) : TermState :=
  let code := c.toNat
  if code == 13 then
    let st := { st with echoed := st.echoed ++ "\r\n" }
    let st :=
      match st.wsReadyState with
      | some rs =>
        if rs == WebSocket.OPEN then
          { st with sentFrames := st.sentFrames ++ [ExecFrame.stdin (st.lineBuffer ++ "\n")] }
        else
          { st with warnings := st.warnings + 1 }
      | none => { st with warnings := st.warnings + 1 }
    { st with lineBuffer := "" }
  else if code == 8 || code == 127 then
    if 0 < st.lineBuffer.length then
      { st with
        lineBuffer := ⟨st.lineBuffer.data.dropLast⟩
        echoed := st.echoed ++ "\x08 \x08" }
    else st
  else if 32 ≤ code then
    { st with lineBuffer := st.lineBuffer.push c, echoed := st.echoed.push c }
  else st

/-- A keystroke of code ≥ 32 other than 127 takes the printable branch. -/
theorem onData_printable (c : Char) (st : TermState) (h32 : 32 ≤ c.toNat)
    (h127 : c.toNat ≠ 127) :
    onData c st = { st with lineBuffer := st.lineBuffer.push c, echoed := st.echoed.push c } := by
  have h13 : (c.toNat == 13) = false := by simp; omega
  have h8 : (c.toNat == 8 || c.toNat == 127) = false := by simp; omega
  simp [onData, h13, h8, h32]

/-- Backspace (code 8) or Delete (code 127) on a non-empty buffer. -/
theorem onData_backspace_nonempty (c : Char) (st : TermState)
    (hc : c.toNat = 8 ∨ c.toNat = 127) (hne : 0 < st.lineBuffer.length) :
    onData c st = { st with
      lineBuffer := ⟨st.lineBuffer.data.dropLast⟩
      echoed := st.echoed ++ "\x08 \x08" } := by
  have h13 : (c.toNat == 13) = false := by simp; omega
  have h8 : (c.toNat == 8 || c.toNat == 127) = true := by
    rcases hc with h | h <;> simp [h]
  simp [onData, h13, h8, hne]

/-- Backspace (code 8) or Delete (code 127) on an empty buffer: no-op. -/
theorem onData_backspace_empty (c : Char) (st : TermState)
    (hc : c.toNat = 8 ∨ c.toNat = 127) (he : st.lineBuffer.length = 0) :
    onData c st = st := by
  have h13 : (c.toNat == 13) = false := by simp; omega
  have h8 : (c.toNat == 8 || c.toNat == 127) = true := by
    rcases hc with h | h <;> simp [h]
  simp [onData, h13, h8, he]

/-- A control code other than 13, 8 and 127 leaves the state unchanged. -/
theorem onData_control (c : Char) (st : TermState) (hlt : c.toNat < 32)
    (h13 : c.toNat ≠ 13) (h8 : c.toNat ≠ 8) :
    onData c st = st := by
  have e13 : (c.toNat == 13) = false := by simp [h13]
  have e8 : (c.toNat == 8 || c.toNat == 127) = false := by simp; omega
  have e32 : ¬ 32 ≤ c.toNat := by omega
  simp [onData, e13, e8, e32]

/-- Enter with the WebSocket ref set and OPEN: echo the newline, send the
buffered line plus `"\n"` as one Stdin frame, clear the buffer. -/
theorem onData_enter_open (st : TermState)
    (h : st.wsReadyState = some WebSocket.OPEN) :
    onData '\x0d' st = { st with
      echoed := st.echoed ++ "\r\n"
      sentFrames := st.sentFrames ++ [ExecFrame.stdin (st.lineBuffer ++ "\n")]
      lineBuffer := "" } := by
  simp [onData, h, WebSocket.OPEN]

/-- Enter with a null WebSocket ref or one that is not OPEN: echo the
newline, warn, send nothing, and still clear the buffer. -/
theorem onData_enter_unsendable (st : TermState)
    (h : st.wsReadyState = none ∨ ∃ rs, st.wsReadyState = some rs ∧ rs ≠ WebSocket.OPEN) :
    onData '\x0d' st = { st with
      echoed := st.echoed ++ "\r\n"
      warnings := st.warnings + 1
      lineBuffer := "" } := by
  rcases h with h | ⟨rs, h, hrs⟩
  · simp [onData, h]
  · have : (rs == WebSocket.OPEN) = false := by simp [hrs]
    simp [onData, h, this]

/-- A fresh terminal attached to an OPEN execution channel: empty pending
line, nothing sent, nothing echoed yet. -/
def termState0 : TermState :=
  ⟨"", some WebSocket.OPEN, [], "", 0⟩

/-- C4: From an empty pending line on an open channel, the keystrokes
"a", "b", Backspace, "c", Enter send exactly one Stdin frame with data
"ac\n" and leave the buffer empty; moreover printable keystrokes
(code ≥ 32, Delete excepted, which the earlier branch catches) append and
echo, Backspace/Delete on a non-empty buffer drops the last character and
echoes the visual backspace, Backspace/Delete on an empty buffer is a
no-op, and every other control code neither echoes nor mutates anything. -/
theorem terminal_line_assembly (st : TermState) :
    ((onData '\x0d' (onData 'c' (onData '\x08' (onData 'b' (onData 'a' termState0))))).sentFrames
        = [ExecFrame.stdin "ac\n"]
      ∧ (onData '\x0d' (onData 'c' (onData '\x08' (onData 'b' (onData 'a' termState0))))).lineBuffer
        = "")
    ∧ (∀ c : Char, 32 ≤ c.toNat → c.toNat ≠ 127 →
        (onData c st).lineBuffer = st.lineBuffer.push c
        ∧ (onData c st).echoed = st.echoed.push c)
    ∧ (0 < st.lineBuffer.length → ∀ c : Char, c.toNat = 8 ∨ c.toNat = 127 →
        (onData c st).lineBuffer = ⟨st.lineBuffer.data.dropLast⟩
        ∧ (onData c st).echoed = st.echoed ++ "\x08 \x08")
    ∧ (st.lineBuffer.length = 0 → ∀ c : Char, c.toNat = 8 ∨ c.toNat = 127 →
        onData c st = st)
    ∧ (∀ c : Char, c.toNat < 32 → c.toNat ≠ 13 → c.toNat ≠ 8 → onData c st = st) := by
  refine ⟨by decide, ?_, ?_, ?_, ?_⟩
  · intro c h32 h127
    rw [onData_printable c st h32 h127]
    exact ⟨rfl, rfl⟩
  · intro hne c hc
    rw [onData_backspace_nonempty c st hc hne]
    exact ⟨rfl, rfl⟩
  · intro he c hc
    exact onData_backspace_empty c st hc he
  · intro c hlt h13 h8
    exact onData_control c st hlt h13 h8

/-- Witness for C4 at concrete keystrokes and state. -/
theorem terminal_line_assembly_witness :
    (onData 'z' termState0).lineBuffer = "".push 'z'
    ∧ onData '\x08' termState0 = termState0 :=
  ⟨((terminal_line_assembly termState0).2.1 'z' (by decide) (by decide)).1,
    (terminal_line_assembly termState0).2.2.2.1 (by decide) '\x08' (Or.inl (by decide))⟩

/-- C5: Every Enter keystroke clears the pending line buffer, whatever the
channel's state; when the WebSocket ref is null or not OPEN, the handler
sends nothing and records one warning instead of throwing (the model is a
total function, so no exception can escape and break the input buffer). -/
theorem enter_clears_buffer_even_unsendable (st : TermState) :
    ((onData '\x0d' st).lineBuffer = "")
    ∧ ((st.wsReadyState = none ∨ ∃ rs, st.wsReadyState = some rs ∧ rs ≠ WebSocket.OPEN) →
        (onData '\x0d' st).sentFrames = st.sentFrames
        ∧ (onData '\x0d' st).warnings = st.warnings + 1) := by
  constructor
  · rcases hws : st.wsReadyState with _ | rs
    · rw [onData_enter_unsendable st (Or.inl hws)]
    · by_cases hrs : rs = WebSocket.OPEN
      · subst hrs
        rw [onData_enter_open st hws]
      · rw [onData_enter_unsendable st (Or.inr ⟨rs, hws, hrs⟩)]
  · intro h
    rw [onData_enter_unsendable st h]
    exact ⟨rfl, rfl⟩

/-- Witness for C5: Enter with a null WebSocket ref on a non-empty buffer. -/
theorem enter_clears_buffer_even_unsendable_witness :
    (onData '\x0d' ⟨"ac", none, [], "", 0⟩).sentFrames = []
    ∧ (onData '\x0d' ⟨"ac", none, [], "", 0⟩).warnings = 1
    ∧ (onData '\x0d' ⟨"ac", none, [], "", 0⟩).lineBuffer = "" :=
  ⟨((enter_clears_buffer_even_unsendable ⟨"ac", none, [], "", 0⟩).2 (Or.inl rfl)).1,
    ((enter_clears_buffer_even_unsendable ⟨"ac", none, [], "", 0⟩).2 (Or.inl rfl)).2,
    (enter_clears_buffer_even_unsendable ⟨"ac", none, [], "", 0⟩).1⟩

/-- The InteractiveTerminal state touched by the execution-channel
`ws.onmessage` handler (InteractiveTerminal.js lines 213–233): the local
`currentExecutionStatus`, the bytes written to the xterm view, and the
arguments of the `onProcessExit` callback invocations, in order. -/
structure ExecState where
  execStatus : Status
  termOut : String
  exitEmits : List Int
deriving DecidableEq, Repr

/-- The banner the exit branch writes to the terminal view. -/
def exitBanner (code : Int) : String :=
  "\r\n\x1b[" ++ (if code == 0 then "32" else "31") ++ "m[Process exited with code "
    ++ toString code ++ "]\x1b[0m\r\n$ "

/-- The execution-channel `ws.onmessage` handler (InteractiveTerminal.js
lines 213–233), applied to one decoded frame:
* `stdout` with truthy (non-empty) data: write the bytes verbatim;
* `stderr` with truthy data: write the bytes wrapped in the red escape;
* `exit`: write the exit banner, set the execution status to
  `Exited (code)` — Success when the code is 0, Error otherwise — and call
  `onProcessExit(code)`. Nothing stops the handler afterwards (the
  `ws.close()` call in this branch is commented out in the source);
* a frame matching no branch (a `stdin` echo, say) does nothing. -/
def onMessage (m : ExecFrame) (st : ExecState) : ExecState :=
  match m with
  | ExecFrame.stdout d =>
      if d ≠ "" then { st with termOut := st.termOut ++ d } else st
  | ExecFrame.stderr d =>
      if d ≠ "" then { st with termOut := st.termOut ++ ("\x1b[31m" ++ d ++ "\x1b[0m") } else st
  | ExecFrame.exit code =>
      { st with
        termOut := st.termOut ++ exitBanner code
        execStatus := createStatus (some ("Exited (" ++ toString code ++ ")"))
          (if code == 0 then StatusType.success else StatusType.error)
        exitEmits := st.exitEmits ++ [code] }
  | ExecFrame.stdin _ => st

/-- The frames of one connection, processed in receipt order. -/
def processFrames (ms : List ExecFrame) (st : ExecState) : ExecState :=
  ms.foldl (fun s m => onMessage m s) st

/-- C6: An Exit frame sets the Execution status to `Exited (code)` — type
Success when the exit code is 0 and Error otherwise — and the status
message contains the exit code's decimal rendering as a substring. -/
theorem exit_frame_sets_execution_status (st : ExecState) (code : Int) :
    (onMessage (ExecFrame.exit code) st).execStatus.message
        = some ("Exited (" ++ toString code ++ ")")
    ∧ (code = 0 → (onMessage (ExecFrame.exit code) st).execStatus.type = StatusType.success)
    ∧ (code ≠ 0 → (onMessage (ExecFrame.exit code) st).execStatus.type = StatusType.error)
    ∧ (toString code).data <:+: ("Exited (" ++ toString code ++ ")").data := by
  refine ⟨rfl, ?_, ?_, ?_⟩
  · intro h
    simp [onMessage, createStatus, h]
  · intro h
    simp [onMessage, createStatus, h]
  · exact ⟨"Exited (".data, ")".data, rfl⟩

/-- Witness for C6 at exit codes 0 and 2 on a running session. -/
theorem exit_frame_sets_execution_status_witness :
    (onMessage (ExecFrame.exit 0)
        ⟨createStatus (some "Process Started...") StatusType.running, "", []⟩).execStatus.type
      = StatusType.success
    ∧ (onMessage (ExecFrame.exit 2)
        ⟨createStatus (some "Process Started...") StatusType.running, "", []⟩).execStatus.type
      = StatusType.error :=
  ⟨(exit_frame_sets_execution_status
      ⟨createStatus (some "Process Started...") StatusType.running, "", []⟩ 0).2.1 rfl,
    (exit_frame_sets_execution_status
      ⟨createStatus (some "Process Started...") StatusType.running, "", []⟩ 2).2.2.1 (by decide)⟩

/-- The terminal state right after `Attached`: execution status
`Running("Process Started...")`, nothing written, no exit emitted. -/
def execState0 : ExecState :=
  ⟨createStatus (some "Process Started...") StatusType.running, "", []⟩

/-- C7 (counterexample): the handler keeps processing frames after an Exit
frame. On the frame sequence `[Exit 0, Exit 2]` received while attached,
`onProcessExit` is invoked twice — once per Exit frame — and the second
Exit overwrites the execution status set by the first (Success becomes
Error), so the claimed stop-after-first-Exit behaviour does not hold. -/
theorem second_exit_frame_still_processed :
    (processFrames [ExecFrame.exit 0, ExecFrame.exit 2] execState0).exitEmits = [0, 2]
    ∧ (processFrames [ExecFrame.exit 0, ExecFrame.exit 2] execState0).execStatus.type
        = StatusType.error
    ∧ ¬ (processFrames [ExecFrame.exit 0, ExecFrame.exit 2] execState0).exitEmits = [0] := by
  decide

/-- The exit codes carried by the exit frames of a frame list, in order. -/
def exitCodesOf (ms : List ExecFrame) : List Int :=
  ms.filterMap fun m =>
    match m with
    | ExecFrame.exit c => some c
    | _ => none

/-- One `onmessage` call emits exactly the exit codes of its one frame. -/
theorem onMessage_exitEmits (m : ExecFrame) (st : ExecState) :
    (onMessage m st).exitEmits = st.exitEmits ++ exitCodesOf [m] := by
  cases m with
  | stdout d => by_cases h : d = "" <;> simp [onMessage, exitCodesOf, h]
  | stderr d => by_cases h : d = "" <;> simp [onMessage, exitCodesOf, h]
  | exit c => simp [onMessage, exitCodesOf]
  | stdin d => simp [onMessage, exitCodesOf]

/-- C7 (amended): over any frame sequence of one connection, `Exited` is
emitted exactly once per Exit frame received — the handler never stops, so
the at-most-once emission the spec promises holds exactly when the server
delivers at most one exit frame per session, and a second Exit frame
triggers a second emission. -/
theorem exit_emission_per_exit_frame (ms : List ExecFrame) (st : ExecState) :
    (processFrames ms st).exitEmits = st.exitEmits ++ exitCodesOf ms := by
  induction ms generalizing st with
  | nil => simp [processFrames, exitCodesOf]
  | cons m ms ih =>
    have h1 : processFrames (m :: ms) st = processFrames ms (onMessage m st) := rfl
    rw [h1, ih, onMessage_exitEmits]
    cases m <;> simp [exitCodesOf]

/-- The `WebSocketService` analysis-channel client state
(websocketService.js): `this.socket` with its readyState (`none` when the
field is null), `this.isConnected`, the reconnection counters, the
listener registrations made through `.on` as (event, callback id) pairs,
and two observation counters — how many `new WebSocket(url)` constructions
have happened and how many automatic reconnects (`setTimeout(() =>
this.connect(), this.reconnectDelay)`) have been scheduled. -/
structure WebSocketService where
  socketReadyState : Option Nat
  isConnected : Bool
  reconnectAttempts : Nat
  maxReconnectAttempts : Nat
  listeners : List (String × Nat)
  socketsCreated : Nat
  reconnectsScheduled : Nat
deriving DecidableEq, Repr

/-- `WebSocketService.connect` (websocketService.js lines 166–180): when a
socket exists and is OPEN or CONNECTING, log and return — otherwise
construct a new WebSocket (which starts CONNECTING) and install its
handlers. -/
def WebSocketService.connect (s : WebSocketService) : WebSocketService :=
  match s.socketReadyState with
  | some rs =>
    if rs == WebSocket.OPEN || rs == WebSocket.CONNECTING then s
    else { s with
      socketReadyState := some WebSocket.CONNECTING
      socketsCreated := s.socketsCreated + 1 }
  | none =>
    { s with
      socketReadyState := some WebSocket.CONNECTING
      socketsCreated := s.socketsCreated + 1 }

/-- The `socket.onopen` handler: mark connected and reset the attempt
counter to 0. -/
def WebSocketService.handleOpen (s : WebSocketService) : WebSocketService :=
  { s with
    socketReadyState := some WebSocket.OPEN
    isConnected := true
    reconnectAttempts := 0 }

/-- The `socket.onclose` handler (websocketService.js lines 205–218): mark
disconnected, then — only while the attempt counter is below the cap —
increment it and schedule one delayed `connect()`; at the cap, only log. -/
def WebSocketService.handleClose (s : WebSocketService) : WebSocketService :=
  let s := { s with isConnected := false, socketReadyState := some WebSocket.CLOSED }
  if s.reconnectAttempts < s.maxReconnectAttempts then
    { s with
      reconnectAttempts := s.reconnectAttempts + 1
      reconnectsScheduled := s.reconnectsScheduled + 1 }
  else s

/-- `n` consecutive transport closes with no successful open in between. -/
def closesAfter : Nat → WebSocketService → WebSocketService
  | 0, s => s
  | n + 1, s => closesAfter n (WebSocketService.handleClose s)

/-- Each close schedules a reconnect only up to the remaining headroom of
the attempt counter. -/
theorem closesAfter_scheduled (n : Nat) (s : WebSocketService) :
    (closesAfter n s).reconnectsScheduled
      = s.reconnectsScheduled + min n (s.maxReconnectAttempts - s.reconnectAttempts) := by
  induction n generalizing s with
  | zero => simp [closesAfter]
  | succ n ih =>
    have h1 : closesAfter (n + 1) s = closesAfter n (WebSocketService.handleClose s) := rfl
    rw [h1, ih]
    by_cases h : s.reconnectAttempts < s.maxReconnectAttempts
    · simp only [WebSocketService.handleClose, if_pos h]
      omega
    · simp only [WebSocketService.handleClose, if_neg h]
      omega

/-- C8: From a fresh attempt counter with the cap at 5, any run of `n`
consecutive transport closes schedules exactly `min n 5` automatic
reconnects; once the cap is reached a further close schedules nothing,
leaves the client disconnected and the counter unchanged; a successful
open resets the counter to 0; and a consumer's own `connect()` on the
closed socket still constructs a new WebSocket. -/
theorem reconnect_capped_at_five (s : WebSocketService) (n : Nat) :
    (s.reconnectAttempts = 0 → s.maxReconnectAttempts = 5 →
      (closesAfter n s).reconnectsScheduled = s.reconnectsScheduled + min n 5)
    ∧ (s.maxReconnectAttempts ≤ s.reconnectAttempts →
      (WebSocketService.handleClose s).reconnectsScheduled = s.reconnectsScheduled
      ∧ (WebSocketService.handleClose s).isConnected = false
      ∧ (WebSocketService.handleClose s).reconnectAttempts = s.reconnectAttempts)
    ∧ ((WebSocketService.handleOpen s).reconnectAttempts = 0)
    ∧ (s.socketReadyState = some WebSocket.CLOSED →
      (WebSocketService.connect s).socketsCreated = s.socketsCreated + 1) := by
  refine ⟨?_, ?_, rfl, ?_⟩
  · intro h0 h5
    rw [closesAfter_scheduled, h0, h5]
  · intro h
    have hn : ¬ s.reconnectAttempts < s.maxReconnectAttempts := by omega
    simp [WebSocketService.handleClose, hn]
  · intro h
    simp [WebSocketService.connect, h, WebSocket.CLOSED, WebSocket.OPEN, WebSocket.CONNECTING]

/-- A freshly constructed service: no socket, cap 5, counter 0. -/
def wsService0 : WebSocketService :=
  ⟨none, false, 0, 5, [], 0, 0⟩

/-- Witness for C8: seven consecutive closes schedule only five reconnects. -/
theorem reconnect_capped_at_five_witness :
    (closesAfter 7 wsService0).reconnectsScheduled = 0 + min 7 5 :=
  (reconnect_capped_at_five wsService0 7).1 rfl rfl

/-- C10: Calling `connect()` while the socket is OPEN or CONNECTING is
idempotent — the early return constructs no new WebSocket and leaves the
whole service state (connection, listener registrations, reconnect
counter) unchanged. -/
theorem connect_idempotent_when_active (s : WebSocketService) (rs : Nat)
    (h : s.socketReadyState = some rs)
    (hrs : rs = WebSocket.OPEN ∨ rs = WebSocket.CONNECTING) :
    WebSocketService.connect s = s
    ∧ (WebSocketService.connect s).socketsCreated = s.socketsCreated
    ∧ (WebSocketService.connect s).listeners = s.listeners
    ∧ (WebSocketService.connect s).reconnectAttempts = s.reconnectAttempts := by
  have hc : WebSocketService.connect s = s := by
    rcases hrs with h1 | h1 <;> subst h1 <;>
      simp [WebSocketService.connect, h, WebSocket.OPEN, WebSocket.CONNECTING]
  exact ⟨hc, by rw [hc], by rw [hc], by rw [hc]⟩

/-- Witness for C10 on an OPEN singleton with one registered listener. -/
theorem connect_idempotent_when_active_witness :
    WebSocketService.connect ⟨some WebSocket.OPEN, true, 0, 5, [("lexerResult", 1)], 1, 0⟩
      = ⟨some WebSocket.OPEN, true, 0, 5, [("lexerResult", 1)], 1, 0⟩ :=
  (connect_idempotent_when_active ⟨some WebSocket.OPEN, true, 0, 5, [("lexerResult", 1)], 1, 0⟩
      WebSocket.OPEN rfl (Or.inl rfl)).1

/-- JS `a || d` on a possibly-missing string: a missing or empty (falsy)
value yields the default. -/
def jsOrString (v : Option String) (d : String) : String :=
  match v with
  | some s => if s == "" then d else s
  | none => d

/-- JS `a || d` on a possibly-missing array: only a missing (falsy) value
yields the default — an empty array is truthy. -/
def jsOrList {α : Type} (v : Option (List α)) (d : List α) : List α :=
  match v with
  | some l => l
  | none => d

/-- The response of the `initiateRun` API call (services/api.js): a
`status` ("input_required"/"error"), `success`, the failing `phase`, an
`errors` list, the `prompts` when input is required, and the transpiled
code / program output on completion. Absent JSON fields are `none`. -/
structure InitiateResult where
  success : Bool
  status : Option String
  phase : Option String
  errors : Option (List String)
  prompts : Option (List Prompt)
  transpiledCode : Option String
  output : Option String
deriving DecidableEq, Repr

/-- The reason text `handleRun` reports when `canRun` is false
(App.js lines 228–233). -/
def cannotRunReason (s : AppState) : String :=
  if s.isRunning then "Already running."
  else if !s.syntaxValid then "Syntax errors detected."
  else if (jsTrim s.content).length == 0 then "No code to run."
  else "Cannot run."

/-- `handleRun` (App.js lines 226–292), with the awaited `initiateRun`
call's outcome passed in: `Except.error` models the promise rejecting
(the catch block), `Except.ok` the resolved response. Guard: when
`canRun` is false only the execution status is set. Otherwise mark the
session running, clear the outputs, set Semantic/Execution to Running,
and dispatch on the response: a `phase:"semantic"` failure sets Semantic
to the joined errors, Execution to "Aborted due to Semantic Error" and
ends the run; else Semantic becomes OK and the input-required / direct
success / direct failure branches follow the source. -/
def handleRun (result : Except String InitiateResult) (s : AppState) : AppState :=
  if !(canRun s) then
    { s with executionStatus := createStatus (some (cannotRunReason s)) StatusType.error }
  else
    let s := { s with
      isRunning := true
      programOutput := ""
      transpiledCode := ""
      semanticStatus := createStatus (some "Running...") StatusType.running
      executionStatus := createStatus (some "Waiting for Semantic...") StatusType.running }
    match result with
    | Except.error msg =>
      { s with
        semanticStatus := createStatus (some ("Error: " ++ msg)) StatusType.error
        executionStatus := createStatus (some "Failed") StatusType.error
        semanticValid := false
        isRunning := false }
    | Except.ok r =>
      if r.phase == some "semantic" && !r.success then
        { s with
          semanticStatus := createStatus
            (some ("Error: " ++ joinSemi (jsOrList r.errors ["Unknown semantic error"])))
            StatusType.error
          executionStatus := createStatus (some "Aborted due to Semantic Error") StatusType.error
          semanticValid := false
          isRunning := false }
      else
        let s := { s with
          semanticStatus := createStatus (some "OK") StatusType.success
          semanticValid := true }
        if r.status == some "input_required" then
          { s with
            executionStatus := createStatus (some "Input Required") StatusType.info
            requiredPrompts := jsOrList r.prompts []
            isInputModalVisible := true }
        else if r.success then
          let warnings := joinSemi (jsOrList r.errors [])
          { s with
            transpiledCode := jsOrString r.transpiledCode ""
            programOutput := jsOrString r.output "(No output)"
            executionStatus := createStatus
              (some ("Execution OK "
                ++ (if warnings == "" then "" else "(Warnings: " ++ warnings ++ ")")))
              StatusType.success
            isRunning := false }
        else
          { s with
            executionStatus := createStatus
              (some ("Error (" ++ jsOrString r.phase "execution" ++ "): "
                ++ joinSemi (jsOrList r.errors ["Unknown execution error"])))
              StatusType.error
            transpiledCode := jsOrString r.transpiledCode ""
            isRunning := false }

/-- C9: When the prepare call resolves with `success:false` and
`phase:"semantic"`, the run that was in progress ends with Semantic set to
the joined error messages, Execution set to an Error whose message
contains "Aborted", the session back to idle (`isRunning` false), and no
execution performed — the outputs stay cleared. -/
theorem semantic_failure_aborts_run (r : InitiateResult) (s : AppState)
    (hcan : canRun s = true) (hsucc : r.success = false)
    (hphase : r.phase = some "semantic") :
    (handleRun (Except.ok r) s).semanticStatus
        = createStatus
            (some ("Error: " ++ joinSemi (jsOrList r.errors ["Unknown semantic error"])))
            StatusType.error
    ∧ (handleRun (Except.ok r) s).executionStatus.type = StatusType.error
    ∧ (∃ m, (handleRun (Except.ok r) s).executionStatus.message = some m
        ∧ "Aborted".data <:+: m.data)
    ∧ (handleRun (Except.ok r) s).isRunning = false
    ∧ (handleRun (Except.ok r) s).programOutput = ""
    ∧ (handleRun (Except.ok r) s).transpiledCode = "" := by
  have hr : handleRun (Except.ok r) s
      = { s with
          isRunning := false
          programOutput := ""
          transpiledCode := ""
          semanticStatus := createStatus
            (some ("Error: " ++ joinSemi (jsOrList r.errors ["Unknown semantic error"])))
            StatusType.error
          executionStatus := createStatus (some "Aborted due to Semantic Error") StatusType.error
          semanticValid := false } := by
    simp [handleRun, hcan, hphase, hsucc]
  refine ⟨by rw [hr], by rw [hr]; rfl, ⟨"Aborted due to Semantic Error", by rw [hr]; rfl, ?_⟩,
    by rw [hr], by rw [hr], by rw [hr]⟩
  decide

/-- A state from which a run may start: valid syntax, idle session,
non-blank source. -/
def runnableState : AppState :=
  ⟨createStatus (some "OK") StatusType.success, createStatus (some "OK") StatusType.success,
    pendingStatus, pendingStatus, [], true, false, false, "", "", false, [],
    "mn(){prnt(1);end;}"⟩

/-- Witness for C9 at a concrete semantic failure. -/
theorem semantic_failure_aborts_run_witness :
    (handleRun (Except.ok ⟨false, none, some "semantic", some ["undeclared variable x"],
        none, none, none⟩) runnableState).semanticStatus
      = createStatus (some "Error: undeclared variable x") StatusType.error
    ∧ (handleRun (Except.ok ⟨false, none, some "semantic", some ["undeclared variable x"],
        none, none, none⟩) runnableState).isRunning = false :=
  ⟨(semantic_failure_aborts_run ⟨false, none, some "semantic", some ["undeclared variable x"],
      none, none, none⟩ runnableState (by decide) rfl rfl).1,
    (semantic_failure_aborts_run ⟨false, none, some "semantic", some ["undeclared variable x"],
      none, none, none⟩ runnableState (by decide) rfl rfl).2.2.2.1⟩
